import Mathlib

/-!
Verification of the coordinate-normalisation pipeline in src/normalising.py.

The numeric parts of the script (the haversine distance function and the
sin/cos spherical encoding) are embedded as functions over the real numbers;
Python partiality (math.sqrt raising ValueError on a negative argument,
math.asin raising ValueError outside [-1, 1]) is modelled with Option.
The min-max scaler is supplied by the external sklearn library, so it is
modelled from the specification text.  The data-flow of the pandas table
(which stage writes which column) is embedded as an association list from
column names to value columns.
-/

namespace Normalising

noncomputable section

/-- Degree-to-radian conversion used by the script, both as math.radians
(line 54) and as np.deg2rad (lines 113-114). -/
def radians (x : ℝ) : ℝ := x * Real.pi / 180

/-- Earth_Radius_km, line 51 of normalising.py. -/
def Earth_Radius_km : ℝ := 6371

/-- The intermediate value a computed on line 61 of normalising.py:
a = sin(dlat / 2)**2 + cos(lat1_rad) * cos(lat2_rad) * sin(dlon / 2)**2. -/
def haversine_a (lat1 lon1 lat2 lon2 : ℝ) : ℝ :=
  Real.sin ((radians lat2 - radians lat1) / 2) ^ 2 +
    Real.cos (radians lat1) * Real.cos (radians lat2) *
      Real.sin ((radians lon2 - radians lon1) / 2) ^ 2

/-- The distance value computed on lines 62-64 when no library call fails:
distance = Earth_Radius_km * (2 * asin(sqrt(a))). -/
def haversine_val (lat1 lon1 lat2 lon2 : ℝ) : ℝ :=
  Earth_Radius_km * (2 * Real.arcsin (Real.sqrt (haversine_a lat1 lon1 lat2 lon2)))

/-- calculate_haversine_distance, lines 46-65 of normalising.py.  The function
performs no input validation; the only ways it can fail to return a number are
the Python library domain errors, math.sqrt of a negative argument and
math.asin of an argument outside [-1, 1], modelled here as none. -/
def calculate_haversine_distance (lat1 lon1 lat2 lon2 : ℝ) : Option ℝ :=
  let a := haversine_a lat1 lon1 lat2 lon2
  if a < 0 then none
  else if 1 < Real.sqrt a then none
  else some (Earth_Radius_km * (2 * Real.arcsin (Real.sqrt a)))

/-- Half-angle identity used to analyse the haversine intermediate value. -/
lemma sin_half_sq (x : ℝ) : Real.sin (x / 2) ^ 2 = (1 - Real.cos x) / 2 := by
  have h2 : Real.cos (x / 2) ^ 2 = 1 / 2 + Real.cos x / 2 := by
    have h := Real.cos_sq (x / 2)
    rwa [show 2 * (x / 2) = x by ring] at h
  rw [Real.sin_sq, h2]
  ring

/-- The haversine intermediate value rewritten through the spherical law of
cosines: a = (1 - cos Θ) / 2 where cos Θ is the cosine of the central angle. -/
lemma haversine_a_eq (lat1 lon1 lat2 lon2 : ℝ) :
    haversine_a lat1 lon1 lat2 lon2 =
      (1 - (Real.sin (radians lat1) * Real.sin (radians lat2) +
        Real.cos (radians lat1) * Real.cos (radians lat2) *
          Real.cos (radians lon2 - radians lon1))) / 2 := by
  unfold haversine_a
  rw [sin_half_sq, sin_half_sq,
    show radians lat2 - radians lat1 = -(radians lat1 - radians lat2) by ring,
    Real.cos_neg, Real.cos_sub]
  ring

/-- For all real inputs, in exact arithmetic, the intermediate value a lies in
the interval [0, 1]; no clamp is needed in the real-number model. -/
lemma haversine_a_mem_Icc (lat1 lon1 lat2 lon2 : ℝ) :
    haversine_a lat1 lon1 lat2 lon2 ∈ Set.Icc (0 : ℝ) 1 := by
  rw [haversine_a_eq]
  set s1 := Real.sin (radians lat1) with hs1
  set s2 := Real.sin (radians lat2) with hs2
  set c1 := Real.cos (radians lat1) with hc1
  set c2 := Real.cos (radians lat2) with hc2
  set t := Real.cos (radians lon2 - radians lon1) with ht
  have h1 : s1 ^ 2 + c1 ^ 2 = 1 := Real.sin_sq_add_cos_sq _
  have h2 : s2 ^ 2 + c2 ^ 2 = 1 := Real.sin_sq_add_cos_sq _
  have htl : -1 ≤ t := Real.neg_one_le_cos _
  have htu : t ≤ 1 := Real.cos_le_one _
  have hsq1 : (0 : ℝ) ≤ (s1 - s2) ^ 2 := sq_nonneg _
  have hsq2 : (0 : ℝ) ≤ (s1 + s2) ^ 2 := sq_nonneg _
  have hsq3 : (0 : ℝ) ≤ (c1 - c2 * t) ^ 2 := sq_nonneg _
  have hsq4 : (0 : ℝ) ≤ (c1 + c2 * t) ^ 2 := sq_nonneg _
  have ht2 : (0 : ℝ) ≤ 1 - t ^ 2 := by
    nlinarith [mul_nonneg (show (0 : ℝ) ≤ 1 - t by linarith)
      (show (0 : ℝ) ≤ 1 + t by linarith)]
  have hsq5 : (0 : ℝ) ≤ c2 ^ 2 * (1 - t ^ 2) := mul_nonneg (sq_nonneg _) ht2
  constructor
  · nlinarith
  · nlinarith

/-- The square root taken on line 62 never exceeds 1, so the asin call on the
same line always receives an argument in its domain. -/
lemma haversine_sqrt_le_one (lat1 lon1 lat2 lon2 : ℝ) :
    Real.sqrt (haversine_a lat1 lon1 lat2 lon2) ≤ 1 := by
  have h := (haversine_a_mem_Icc lat1 lon1 lat2 lon2).2
  calc Real.sqrt (haversine_a lat1 lon1 lat2 lon2) ≤ Real.sqrt 1 := Real.sqrt_le_sqrt h
  _ = 1 := Real.sqrt_one

/-- calculate_haversine_distance never hits a library domain error in exact
arithmetic: it always returns the value of lines 62-64. -/
lemma calculate_haversine_distance_eq_some (lat1 lon1 lat2 lon2 : ℝ) :
    calculate_haversine_distance lat1 lon1 lat2 lon2 =
      some (haversine_val lat1 lon1 lat2 lon2) := by
  have h0 := (haversine_a_mem_Icc lat1 lon1 lat2 lon2).1
  have h1 := haversine_sqrt_le_one lat1 lon1 lat2 lon2
  unfold calculate_haversine_distance haversine_val
  rw [if_neg (not_lt.2 h0), if_neg (not_lt.2 h1)]

/-- Spherical sin/cos encoding applied to the pickup columns on lines 113-120:
an angle in degrees is sent to the sine and cosine of its radian value. -/
def spherical_encode (angle : ℝ) : ℝ × ℝ :=
  (Real.sin (radians angle), Real.cos (radians angle))

/-- C1 counterexample: at lat1 = 100, outside the WGS84 latitude range
[-90, 90], calculate_haversine_distance returns a number instead of failing
with an InvalidCoordinate error, because the function performs no input
validation. -/
theorem calculate_haversine_distance_no_validation_cex :
    (calculate_haversine_distance 100 0 0 0).isSome = true := by
  rw [calculate_haversine_distance_eq_some]
  rfl

/-- C1 (amended): calculate_haversine_distance performs no input validation
and never raises an InvalidCoordinate error: for every real-valued input,
including coordinates outside the WGS84 ranges, the formula is evaluated and,
in exact arithmetic, returns a number. -/
theorem calculate_haversine_distance_total (lat1 lon1 lat2 lon2 : ℝ) :
    (calculate_haversine_distance lat1 lon1 lat2 lon2).isSome = true := by
  rw [calculate_haversine_distance_eq_some]
  rfl

/-- C3: the haversine distance is symmetric: for coordinate pairs within
WGS84 bounds, swapping the two points leaves the result unchanged. -/
theorem calculate_haversine_distance_symm (lat1 lon1 lat2 lon2 : ℝ)
    (h1 : lat1 ∈ Set.Icc (-90 : ℝ) 90) (h2 : lon1 ∈ Set.Icc (-180 : ℝ) 180)
    (h3 : lat2 ∈ Set.Icc (-90 : ℝ) 90) (h4 : lon2 ∈ Set.Icc (-180 : ℝ) 180) :
    calculate_haversine_distance lat1 lon1 lat2 lon2 =
      calculate_haversine_distance lat2 lon2 lat1 lon1 := by
  have ha : haversine_a lat1 lon1 lat2 lon2 = haversine_a lat2 lon2 lat1 lon1 := by
    unfold haversine_a
    rw [show (radians lat1 - radians lat2) / 2 =
          -((radians lat2 - radians lat1) / 2) by ring,
        show (radians lon1 - radians lon2) / 2 =
          -((radians lon2 - radians lon1) / 2) by ring,
        Real.sin_neg, Real.sin_neg]
    ring
  rw [calculate_haversine_distance_eq_some, calculate_haversine_distance_eq_some]
  unfold haversine_val
  rw [ha]

/-- Witness for C3 at the concrete in-bounds points (0, 0) and (45, 90). -/
theorem calculate_haversine_distance_symm_witness :
    calculate_haversine_distance 0 0 45 90 =
      calculate_haversine_distance 45 90 0 0 :=
  calculate_haversine_distance_symm 0 0 45 90
    (by constructor <;> norm_num) (by constructor <;> norm_num)
    (by constructor <;> norm_num) (by constructor <;> norm_num)

/-- C4: the haversine distance from any in-bounds point to itself is exactly
some 0 (the function succeeds and returns zero). -/
theorem calculate_haversine_distance_self (lat lon : ℝ)
    (h1 : lat ∈ Set.Icc (-90 : ℝ) 90) (h2 : lon ∈ Set.Icc (-180 : ℝ) 180) :
    calculate_haversine_distance lat lon lat lon = some 0 := by
  have ha : haversine_a lat lon lat lon = 0 := by
    unfold haversine_a
    simp
  rw [calculate_haversine_distance_eq_some]
  unfold haversine_val
  rw [ha, Real.sqrt_zero, Real.arcsin_zero]
  norm_num

/-- Witness for C4 at the concrete in-bounds point (40, -73). -/
theorem calculate_haversine_distance_self_witness :
    calculate_haversine_distance 40 (-73) 40 (-73) = some 0 :=
  calculate_haversine_distance_self 40 (-73)
    (by constructor <;> norm_num) (by constructor <;> norm_num)

/-- C5: for in-bounds coordinate pairs calculate_haversine_distance returns a
number d with 0 ≤ d ≤ π · R, R = 6371 km (half the circumference of the Earth
model); in particular the result is never negative. -/
theorem calculate_haversine_distance_bounds (lat1 lon1 lat2 lon2 : ℝ)
    (h1 : lat1 ∈ Set.Icc (-90 : ℝ) 90) (h2 : lon1 ∈ Set.Icc (-180 : ℝ) 180)
    (h3 : lat2 ∈ Set.Icc (-90 : ℝ) 90) (h4 : lon2 ∈ Set.Icc (-180 : ℝ) 180) :
    calculate_haversine_distance lat1 lon1 lat2 lon2 =
        some (haversine_val lat1 lon1 lat2 lon2) ∧
      0 ≤ haversine_val lat1 lon1 lat2 lon2 ∧
      haversine_val lat1 lon1 lat2 lon2 ≤ Real.pi * Earth_Radius_km := by
  refine ⟨calculate_haversine_distance_eq_some lat1 lon1 lat2 lon2, ?_, ?_⟩
  · have harc : 0 ≤ Real.arcsin (Real.sqrt (haversine_a lat1 lon1 lat2 lon2)) :=
      Real.arcsin_nonneg.2 (Real.sqrt_nonneg _)
    unfold haversine_val Earth_Radius_km
    nlinarith
  · have harc : Real.arcsin (Real.sqrt (haversine_a lat1 lon1 lat2 lon2)) ≤
        Real.pi / 2 := Real.arcsin_le_pi_div_two _
    unfold haversine_val Earth_Radius_km
    nlinarith

/-- Witness for C5 at the concrete in-bounds points (0, 0) and (45, 90). -/
theorem calculate_haversine_distance_bounds_witness :
    calculate_haversine_distance 0 0 45 90 = some (haversine_val 0 0 45 90) ∧
      0 ≤ haversine_val 0 0 45 90 ∧
      haversine_val 0 0 45 90 ≤ Real.pi * Earth_Radius_km :=
  calculate_haversine_distance_bounds 0 0 45 90
    (by constructor <;> norm_num) (by constructor <;> norm_num)
    (by constructor <;> norm_num) (by constructor <;> norm_num)

/-- C6: for every angle in degrees, the spherical encoding of lines 113-120
yields a pair with each component in [-1, 1] whose squares sum exactly to 1
(real arithmetic makes the floating-point tolerance exact). -/
theorem spherical_encode_on_unit_circle (angle : ℝ) :
    (spherical_encode angle).1 ^ 2 + (spherical_encode angle).2 ^ 2 = 1 ∧
      -1 ≤ (spherical_encode angle).1 ∧ (spherical_encode angle).1 ≤ 1 ∧
      -1 ≤ (spherical_encode angle).2 ∧ (spherical_encode angle).2 ≤ 1 :=
  ⟨Real.sin_sq_add_cos_sq _, Real.neg_one_le_sin _, Real.sin_le_one _,
    Real.neg_one_le_cos _, Real.cos_le_one _⟩

/-- Minimum of a batch of values, empty batch mapped to 0 (the scaler is only
ever fitted on nonempty batches). -/
def listMin : List ℝ → ℝ
  | [] => 0
  | x :: xs => xs.foldl min x

/-- Maximum of a batch of values, empty batch mapped to 0. -/
def listMax : List ℝ → ℝ
  | [] => 0
  | x :: xs => xs.foldl max x

lemma foldl_min_le_init (xs : List ℝ) (a : ℝ) : xs.foldl min a ≤ a := by
  induction xs generalizing a with
  | nil => exact le_refl a
  | cons y ys ih =>
      exact le_trans (ih (min a y)) (min_le_left a y)

lemma foldl_min_le_mem (xs : List ℝ) (a x : ℝ) (hx : x ∈ xs) :
    xs.foldl min a ≤ x := by
  induction xs generalizing a with
  | nil => cases hx
  | cons y ys ih =>
      rcases List.mem_cons.1 hx with h | h
      · subst h
        exact le_trans (foldl_min_le_init ys (min a x)) (min_le_right a x)
      · exact ih (min a y) h

lemma init_le_foldl_max (xs : List ℝ) (a : ℝ) : a ≤ xs.foldl max a := by
  induction xs generalizing a with
  | nil => exact le_refl a
  | cons y ys ih =>
      exact le_trans (le_max_left a y) (ih (max a y))

lemma mem_le_foldl_max (xs : List ℝ) (a x : ℝ) (hx : x ∈ xs) :
    x ≤ xs.foldl max a := by
  induction xs generalizing a with
  | nil => cases hx
  | cons y ys ih =>
      rcases List.mem_cons.1 hx with h | h
      · subst h
        exact le_trans (le_max_right a x) (init_le_foldl_max ys (max a x))
      · exact ih (max a y) h

lemma listMin_le_of_mem {l : List ℝ} {x : ℝ} (hx : x ∈ l) : listMin l ≤ x := by
  cases l with
  | nil => cases hx
  | cons y ys =>
      rcases List.mem_cons.1 hx with h | h
      · subst h
        exact foldl_min_le_init ys x
      · exact foldl_min_le_mem ys y x h

lemma le_listMax_of_mem {l : List ℝ} {x : ℝ} (hx : x ∈ l) : x ≤ listMax l := by
  cases l with
  | nil => cases hx
  | cons y ys =>
      rcases List.mem_cons.1 hx with h | h
      · subst h
        exact init_le_foldl_max ys x
      · exact mem_le_foldl_max ys y x h

/-- Modelled from the spec: the Range Scaler state.  The scaler itself is
sklearn MinMaxScaler, external to this repository, so its behaviour is taken
from the specification text: fit records the per-dimension min and max of the
batch presented to it. -/
structure ScalerState where
  mn : ℝ
  mx : ℝ

/-- Modelled from the spec: the fit phase of the Range Scaler over one
dimension of the batch. -/
def fit (l : List ℝ) : ScalerState :=
  ⟨listMin l, listMax l⟩

/-- Modelled from the spec: the transform phase of the Range Scaler,
scaled = (value - min) / (max - min), with the explicit degenerate-dimension
policy of outputting 0 when max = min. -/
def transform (st : ScalerState) (v : ℝ) : ℝ :=
  if st.mx = st.mn then 0 else (v - st.mn) / (st.mx - st.mn)

/-- Modelled from the spec: the combined fit_transform used on line 137 of
normalising.py, applied per dimension. -/
def fit_transform (l : List ℝ) (v : ℝ) : ℝ :=
  transform (fit l) v

/-- C7: over a fitted batch whose maximum strictly exceeds its minimum, the
Range Scaler computes (value - min) / (max - min); every output for a batch
member lies in [0, 1], the minimum maps to exactly 0 and the maximum to
exactly 1. -/
theorem fit_transform_range (l : List ℝ) (v : ℝ) (hv : v ∈ l)
    (hlt : listMin l < listMax l) :
    fit_transform l v = (v - listMin l) / (listMax l - listMin l) ∧
      0 ≤ fit_transform l v ∧ fit_transform l v ≤ 1 ∧
      fit_transform l (listMin l) = 0 ∧ fit_transform l (listMax l) = 1 := by
  have hne : listMax l ≠ listMin l := ne_of_gt hlt
  have hpos : 0 < listMax l - listMin l := sub_pos.2 hlt
  have hform : ∀ w : ℝ, fit_transform l w = (w - listMin l) / (listMax l - listMin l) := by
    intro w
    unfold fit_transform transform fit
    exact if_neg hne
  refine ⟨hform v, ?_, ?_, ?_, ?_⟩
  · rw [hform v]
    exact div_nonneg (sub_nonneg.2 (listMin_le_of_mem hv)) hpos.le
  · rw [hform v]
    exact (div_le_one hpos).2 (sub_le_sub_right (le_listMax_of_mem hv) _)
  · rw [hform (listMin l), sub_self, zero_div]
  · rw [hform (listMax l)]
    exact div_self (sub_ne_zero.2 hne)

/-- Witness for C7 on the concrete batch [1, 3] at its member 3. -/
theorem fit_transform_range_witness :
    fit_transform [1, 3] 3 = (3 - listMin [1, 3]) / (listMax [1, 3] - listMin [1, 3]) ∧
      0 ≤ fit_transform [1, 3] 3 ∧ fit_transform [1, 3] 3 ≤ 1 ∧
      fit_transform [1, 3] (listMin [1, 3]) = 0 ∧
      fit_transform [1, 3] (listMax [1, 3]) = 1 :=
  fit_transform_range [1, 3] 3 (by simp)
    (by norm_num [listMin, listMax, List.foldl])

/-- C8: on a zero-variance dimension (max = min) the Range Scaler divides by
nothing and produces the defined output 0 for every entry of the batch. -/
theorem fit_transform_degenerate (l : List ℝ) (v : ℝ) (hv : v ∈ l)
    (heq : listMax l = listMin l) : fit_transform l v = 0 := by
  unfold fit_transform transform fit
  exact if_pos heq

/-- Witness for C8 on the concrete constant batch [2, 2, 2] at its member 2. -/
theorem fit_transform_degenerate_witness : fit_transform [2, 2, 2] 2 = 0 :=
  fit_transform_degenerate [2, 2, 2] 2 (by simp)
    (by norm_num [listMin, listMax, List.foldl])

/-- The column selection building final_output on lines 150-157 of
normalising.py, in source order. -/
def final_output_columns : List String :=
  ["trip_id",
   "pickup_lat", "pickup_lon",
   "distance_km",
   "pickup_x_meters", "pickup_y_meters",
   "pickup_lon_sin", "pickup_lon_cos",
   "pickup_x_scaled", "pickup_y_scaled"]

/-- C9 counterexample: the final output selection omits the pickup_lat_sin and
pickup_lat_cos columns that the claim requires it to expose. -/
theorem final_output_columns_cex :
    "pickup_lat_sin" ∉ final_output_columns ∧
      "pickup_lat_cos" ∉ final_output_columns := by
  constructor <;> · intro h; simp [final_output_columns] at h

/-- C9 (amended): final_output exposes trip_id, pickup_lat, pickup_lon,
distance_km, pickup_x_meters, pickup_y_meters, pickup_lon_sin,
pickup_lon_cos, pickup_x_scaled and pickup_y_scaled, each exactly once and in
that fixed order; pickup_lat_sin and pickup_lat_cos are computed in the full
table but are not part of the final output selection. -/
theorem final_output_columns_amended :
    "trip_id" ∈ final_output_columns ∧
      "distance_km" ∈ final_output_columns ∧
      "pickup_x_meters" ∈ final_output_columns ∧
      "pickup_y_meters" ∈ final_output_columns ∧
      "pickup_lon_sin" ∈ final_output_columns ∧
      "pickup_lon_cos" ∈ final_output_columns ∧
      "pickup_x_scaled" ∈ final_output_columns ∧
      "pickup_y_scaled" ∈ final_output_columns ∧
      final_output_columns.Nodup ∧
      final_output_columns =
        ["trip_id", "pickup_lat", "pickup_lon", "distance_km",
         "pickup_x_meters", "pickup_y_meters", "pickup_lon_sin",
         "pickup_lon_cos", "pickup_x_scaled", "pickup_y_scaled"] := by
  refine ⟨?_, ?_, ?_, ?_, ?_, ?_, ?_, ?_, ?_, rfl⟩ <;> simp [final_output_columns]

/-- A column of the pandas table: one value per row. -/
abbrev Col := List ℝ

/-- The pandas DataFrame modelled as an ordered association list from column
name to column values. -/
abbrev Table := List (String × Col)

/-- Column assignment df[name] = vals: overwrite in place when the column
exists, otherwise append the new column at the end. -/
def setCol (t : Table) (name : String) (vals : Col) : Table :=
  if t.any (fun p => p.1 == name) then
    t.map (fun p => if p.1 == name then (p.1, vals) else p)
  else t ++ [(name, vals)]

/-- Column lookup df[name]. -/
def getCol (t : Table) (name : String) : Option Col :=
  (t.find? (fun p => p.1 == name)).map (fun p => p.2)

/-- The initial my_data_table built from trip_data on lines 30-37, with the
five input columns in source order and arbitrary row contents. -/
def initial_table (tid plat plon dlat dlon : Col) : Table :=
  [("trip_id", tid), ("pickup_lat", plat), ("pickup_lon", plon),
   ("dropoff_lat", dlat), ("dropoff_lon", dlon)]

/-- Stage 3 (lines 69-75): adds the distance_km column. -/
def stage3 (t : Table) (dist : Col) : Table :=
  setCol t "distance_km" dist

/-- Stage 4 (lines 98-99): adds the projected pickup_x_meters and
pickup_y_meters columns. -/
def stage4 (t : Table) (xm ym : Col) : Table :=
  setCol (setCol t "pickup_x_meters" xm) "pickup_y_meters" ym

/-- Stage 5 (lines 113-120): adds the radian helper columns and the four
sin/cos encoding columns. -/
def stage5 (t : Table) (lr lar lns lnc lts ltc : Col) : Table :=
  setCol (setCol (setCol (setCol (setCol (setCol t
    "lon_rad" lr) "lat_rad" lar)
    "pickup_lon_sin" lns) "pickup_lon_cos" lnc)
    "pickup_lat_sin" lts) "pickup_lat_cos" ltc

/-- Stage 6 (lines 137-139): adds the pickup_x_scaled and pickup_y_scaled
columns. -/
def stage6 (t : Table) (xsc ysc : Col) : Table :=
  setCol (setCol t "pickup_x_scaled" xsc) "pickup_y_scaled" ysc

/-- The four transform stages run in source order over the initial table. -/
def pipeline (tid plat plon dlat dlon dist xm ym lr lar lns lnc lts ltc xsc ysc : Col) :
    Table :=
  stage6 (stage5 (stage4 (stage3 (initial_table tid plat plon dlat dlon) dist)
    xm ym) lr lar lns lnc lts ltc) xsc ysc

set_option maxHeartbeats 1000000 in
/-- Running the four stages evaluates to an explicit table: every setCol call
hits a fresh column name and appends it. -/
lemma pipeline_eq (tid plat plon dlat dlon dist xm ym lr lar lns lnc lts ltc xsc ysc : Col) :
    pipeline tid plat plon dlat dlon dist xm ym lr lar lns lnc lts ltc xsc ysc =
      [("trip_id", tid), ("pickup_lat", plat), ("pickup_lon", plon),
       ("dropoff_lat", dlat), ("dropoff_lon", dlon), ("distance_km", dist),
       ("pickup_x_meters", xm), ("pickup_y_meters", ym), ("lon_rad", lr),
       ("lat_rad", lar), ("pickup_lon_sin", lns), ("pickup_lon_cos", lnc),
       ("pickup_lat_sin", lts), ("pickup_lat_cos", ltc),
       ("pickup_x_scaled", xsc), ("pickup_y_scaled", ysc)] := by
  simp [pipeline, stage3, stage4, stage5, stage6, initial_table, setCol]

/-- C10: whatever the row contents, the stages only append fresh column
names, so the final column-name sequence is the five input names followed by
the eleven stage-written names, each written exactly once; the five original
input columns still hold exactly their input values afterwards. -/
theorem pipeline_only_adds (tid plat plon dlat dlon dist xm ym lr lar lns lnc lts ltc xsc ysc : Col) :
    (pipeline tid plat plon dlat dlon dist xm ym lr lar lns lnc lts ltc xsc ysc).map
        Prod.fst =
      ["trip_id", "pickup_lat", "pickup_lon", "dropoff_lat", "dropoff_lon",
       "distance_km", "pickup_x_meters", "pickup_y_meters", "lon_rad",
       "lat_rad", "pickup_lon_sin", "pickup_lon_cos", "pickup_lat_sin",
       "pickup_lat_cos", "pickup_x_scaled", "pickup_y_scaled"] ∧
      getCol (pipeline tid plat plon dlat dlon dist xm ym lr lar lns lnc lts ltc xsc ysc)
          "trip_id" = some tid ∧
      getCol (pipeline tid plat plon dlat dlon dist xm ym lr lar lns lnc lts ltc xsc ysc)
          "pickup_lat" = some plat ∧
      getCol (pipeline tid plat plon dlat dlon dist xm ym lr lar lns lnc lts ltc xsc ysc)
          "pickup_lon" = some plon ∧
      getCol (pipeline tid plat plon dlat dlon dist xm ym lr lar lns lnc lts ltc xsc ysc)
          "dropoff_lat" = some dlat ∧
      getCol (pipeline tid plat plon dlat dlon dist xm ym lr lar lns lnc lts ltc xsc ysc)
          "dropoff_lon" = some dlon := by
  rw [pipeline_eq]
  refine ⟨?_, ?_, ?_, ?_, ?_, ?_⟩ <;> simp [getCol, List.find?]

end

end Normalising
